import Mathlib

/-!
Verification of the gravity-compensation filter of the control_toolbox
repository (src/include/control_filters/gravity_compensation.hpp and its
tests).  Real-valued sensor data is embedded with exact rational
arithmetic in place of IEEE doubles; frames are strings; the tf2 frame
transform provider is embedded as a lookup over an explicit list of
stored transforms.  The body of GravityCompensation::update is not part
of the repository snapshot (only its declaration and its tests are), so
it is modelled from the specification, as are the generated parameter
validation and the tf2 lookup semantics; everything else follows the
header source directly.
-/

namespace ControlFilters

/-- Three real-valued components (geometry_msgs Vector3), embedded with
exact rationals. -/
structure Vec3 where
  x : ℚ
  y : ℚ
  z : ℚ
deriving DecidableEq, Repr

/-- Component-wise addition of two vectors. -/
def Vec3.add (a b : Vec3) : Vec3 :=
  ⟨a.x + b.x, a.y + b.y, a.z + b.z⟩

/-- Component-wise subtraction of two vectors. -/
def Vec3.sub (a b : Vec3) : Vec3 :=
  ⟨a.x - b.x, a.y - b.y, a.z - b.z⟩

/-- Cross product of two vectors. -/
def Vec3.cross (a b : Vec3) : Vec3 :=
  ⟨a.y * b.z - a.z * b.y, a.z * b.x - a.x * b.z, a.x * b.y - a.y * b.x⟩

/-- Dot product of two vectors. -/
def Vec3.dot (a b : Vec3) : ℚ :=
  a.x * b.x + a.y * b.y + a.z * b.z

/-- The zero vector. -/
def Vec3.zero : Vec3 := ⟨0, 0, 0⟩

/-- A rotation, embedded as a 3x3 matrix given by its rows (none of the
claims needs orthogonality, so it is not imposed). -/
structure Rot3 where
  row1 : Vec3
  row2 : Vec3
  row3 : Vec3
deriving DecidableEq, Repr

/-- Apply a rotation matrix to a vector. -/
def Rot3.apply (r : Rot3) (v : Vec3) : Vec3 :=
  ⟨r.row1.dot v, r.row2.dot v, r.row3.dot v⟩

/-- The identity rotation. -/
def Rot3.id : Rot3 :=
  ⟨⟨1, 0, 0⟩, ⟨0, 1, 0⟩, ⟨0, 0, 1⟩⟩

/-- A rigid transform between two frames: rotation plus translation
(geometry_msgs TransformStamped, stripped of its header). -/
structure Transform where
  rot : Rot3
  trans : Vec3
deriving DecidableEq, Repr

/-- The identity transform. -/
def Transform.id : Transform := ⟨Rot3.id, Vec3.zero⟩

/-- A 6-axis force/torque value (geometry_msgs Wrench). -/
structure Wrench where
  force : Vec3
  torque : Vec3
deriving DecidableEq, Repr

/-- A wrench together with its source frame and timestamp
(geometry_msgs WrenchStamped). -/
structure WrenchStamped where
  frame_id : String
  stamp : ℚ
  wrench : Wrench
deriving DecidableEq, Repr

/-- The store of the tf2 buffer: transforms keyed by (target frame,
source frame). -/
def TfStore : Type := List (String × String × Transform)

instance : DecidableEq TfStore := by
  unfold TfStore
  infer_instance

/-- Modelled from the spec: the external frame transform provider
(tf2_ros Buffer lookupTransform, §6), absent from the repository
snapshot.  It resolves the transform with the given target and source
frames or fails; when the two frames coincide it resolves to the
identity transform without consulting the store (§4.2 edge cases:
identity is resolved by the same lookup, not special-cased, which is
what lets the tests run with an empty buffer and all frames equal). -/
def lookupTransform (store : TfStore) (target source : String) :
    Option Transform :=
  if target = source then some Transform.id
  else Option.map (fun e => e.2.2)
    (List.find? (fun e => e.1 = target ∧ e.2.1 = source) store)

/-- The validated parameter struct (gravity_compensation_filter::Params)
read by configure: the three frame names and the two CoG calibration
vectors, the latter kept as raw lists exactly as the generated struct
holds std::vector of double. -/
structure Params where
  world_frame : String
  sensor_frame : String
  force_frame : String
  cog_pos : List ℚ
  cog_force : List ℚ
deriving DecidableEq, Repr

/-- The parameter struct a freshly constructed filter holds before any
configuration: default-constructed strings and vectors. -/
def Params.default : Params := ⟨"", "", "", [], []⟩

/-- The raw contents of the external parameter source handed to
configure: each declared parameter may be present or missing. -/
structure RawParams where
  world_frame : Option String
  sensor_frame : Option String
  force_frame : Option String
  cog_pos : Option (List ℚ)
  cog_force : Option (List ℚ)
deriving DecidableEq, Repr

/-- Modelled from the spec: the validation performed when the generated
gravity_compensation_filter::ParamListener is constructed (the generated
parameter library and its parameter declarations are absent from the
repository snapshot).  Every frame name is required and non-empty, and
each CoG calibration vector is required with exactly 3 components
(§4.1, §8); on any violation the construction fails. -/
def validateParams (raw : RawParams) : Option Params :=
  match raw.world_frame, raw.sensor_frame, raw.force_frame,
        raw.cog_pos, raw.cog_force with
  | some w, some s, some f, some pos, some force =>
    if w ≠ "" ∧ s ≠ "" ∧ f ≠ "" ∧
        pos.length = 3 ∧ force.length = 3 then
      some ⟨w, s, f, pos, force⟩
    else
      none
  | _, _, _, _, _ => none

/-- Mirrors GravityCompensation::compute_internal_params: copies the
three components of the CoG position and gravity force parameter
vectors into the cached Vector3 storage (cog_ and force_); indexing a
validated 3-vector, with 0 as the out-of-range default. -/
def compute_internal_params (p : Params) : Vec3 × Vec3 :=
  (⟨p.cog_pos.getD 0 0, p.cog_pos.getD 1 0, p.cog_pos.getD 2 0⟩,
   ⟨p.cog_force.getD 0 0, p.cog_force.getD 1 0, p.cog_force.getD 2 0⟩)

/-- The state a GravityCompensation filter instance owns:
parameter_handler models the presence of the ParamListener created once
by configure; parameters, cog and force are the cached parameter struct
and the calibration vectors computed from it; tf_buffer is the store of
the tf2 buffer and listener the instance owns. -/
structure GravityCompensationState where
  parameter_handler : Option Unit
  parameters : Params
  cog : Vec3
  force : Vec3
  tf_buffer : TfStore
deriving DecidableEq

/-- A freshly constructed, never configured filter instance. -/
def initState : GravityCompensationState :=
  { parameter_handler := none
    parameters := Params.default
    cog := Vec3.zero
    force := Vec3.zero
    tf_buffer := [] }

/-- GravityCompensation::configure from
src/include/control_filters/gravity_compensation.hpp (lines 95-129).
The clock, the tf2 buffer and the transform listener are recreated
first, unconditionally (lines 98-100), modelled by clearing the stored
transform set.  The parameter listener is created only once (the guard
at line 106); its construction validates the parameters and a
validation exception makes configure fail with the handler reset (the
validation itself is modelled from the spec, see validateParams).  When
the handler already exists, get_params returns the currently cached
parameters: the external parameter machinery rejects invalid values at
set time, so the current values are the latest ones that passed
validation, modelled by falling back to the previously cached struct.
On the successful path the parameters are re-read and
compute_internal_params refreshes the calibration vectors. -/
def configure (raw : RawParams) (st : GravityCompensationState) :
    Bool × GravityCompensationState :=
  let st1 := { st with tf_buffer := ([] : TfStore) }
  match st1.parameter_handler with
  | none =>
    match validateParams raw with
    | none => (false, st1)
    | some p =>
      (true, { st1 with
                parameter_handler := some ()
                parameters := p
                cog := (compute_internal_params p).1
                force := (compute_internal_params p).2 })
  | some _ =>
    let p := (validateParams raw).getD st1.parameters
    (true, { st1 with
              parameters := p
              cog := (compute_internal_params p).1
              force := (compute_internal_params p).2 })

/-- Modelled from the spec: GravityCompensation::update for
WrenchStamped data, whose definition is not in the repository snapshot
(only its declaration at gravity_compensation.hpp line 50 and its tests
are).  Following §4.2: an update on an unconfigured filter is rejected
(§7, error kind 3); four transforms are resolved — (a) source frame to
world, (b) world to the caller-chosen output frame, (c) sensor frame to
world, (d) force-reference frame to world — and any lookup failure
aborts the whole update with no output; the CoG position (a point) is
re-expressed in world coordinates by rotation plus translation and the
gravity force vector (a free vector) by rotation only; the
gravity-induced wrench is that force with torque the cross product of
world CoG and world force; the raw wrench is rotated into the world
frame (rotation only, wrench components are free vectors), the gravity
wrench is subtracted component-wise, and the corrected wrench is
rotated into the output frame and stamped with the output frame
identifier and the original timestamp.  The output frame is the
caller-preset frame on the output slot, passed here as out_frame. -/
def update (st : GravityCompensationState) (data_in : WrenchStamped)
    (out_frame : String) : Option WrenchStamped :=
  match st.parameter_handler with
  | none => none
  | some _ =>
    match
      lookupTransform st.tf_buffer st.parameters.world_frame data_in.frame_id,
      lookupTransform st.tf_buffer out_frame st.parameters.world_frame,
      lookupTransform st.tf_buffer st.parameters.world_frame st.parameters.sensor_frame,
      lookupTransform st.tf_buffer st.parameters.world_frame st.parameters.force_frame
    with
    | some ta, some tb, some tc, some td =>
      let cog_world := (tc.rot.apply st.cog).add tc.trans
      let gravity_world := td.rot.apply st.force
      let raw_force_world := ta.rot.apply data_in.wrench.force
      let raw_torque_world := ta.rot.apply data_in.wrench.torque
      let corrected_force := raw_force_world.sub gravity_world
      let corrected_torque := raw_torque_world.sub (cog_world.cross gravity_world)
      some { frame_id := out_frame
             stamp := data_in.stamp
             wrench := { force := tb.rot.apply corrected_force
                         torque := tb.rot.apply corrected_torque } }
    | _, _, _, _ => none

/-- A configure step folded over a list of parameter snapshots: threads
the state and records whether any call so far succeeded. -/
def configStep (acc : GravityCompensationState × Bool) (r : RawParams) :
    GravityCompensationState × Bool :=
  ((configure r acc.1).2, acc.2 || (configure r acc.1).1)

/-- Runs a sequence of configure calls on a freshly constructed filter,
returning the final state and whether any call succeeded. -/
def runConfigures (raws : List RawParams) : GravityCompensationState × Bool :=
  List.foldl configStep (initState, false) raws

/-- Helper: a failed configure call leaves the parameter handler absent
and the cached parameters and calibration vectors untouched. -/
theorem configure_failed_state (raw : RawParams)
    (st : GravityCompensationState) (h : (configure raw st).1 = false) :
    (configure raw st).2.parameter_handler = none ∧
    st.parameter_handler = none ∧
    (configure raw st).2.parameters = st.parameters ∧
    (configure raw st).2.cog = st.cog ∧
    (configure raw st).2.force = st.force := by
  unfold configure at h ⊢
  cases hh : st.parameter_handler with
  | none =>
    cases hv : validateParams raw with
    | none => simp_all
    | some p => simp_all
  | some u => simp_all

/-- Helper: once the flag of the fold is true it stays true. -/
theorem foldl_configStep_true (raws : List RawParams)
    (st : GravityCompensationState) :
    (List.foldl configStep (st, true) raws).2 = true := by
  induction raws generalizing st with
  | nil => rfl
  | cons r rest ih =>
    simp only [List.foldl, configStep, Bool.true_or]
    exact ih (configure r st).2

/-- Helper: if no configure call of the fold succeeded, the parameter
handler is still absent at the end. -/
theorem foldl_configStep_false_handler (raws : List RawParams)
    (st : GravityCompensationState) (hnone : st.parameter_handler = none)
    (h : (List.foldl configStep (st, false) raws).2 = false) :
    (List.foldl configStep (st, false) raws).1.parameter_handler = none := by
  induction raws generalizing st with
  | nil => simpa using hnone
  | cons r rest ih =>
    simp only [List.foldl, configStep, Bool.false_or] at h ⊢
    cases hb : (configure r st).1 with
    | true =>
      rw [hb, foldl_configStep_true] at h
      exact absurd h (by simp)
    | false =>
      rw [hb] at h
      exact ih (configure r st).2 (configure_failed_state r st hb).1 h

/-- Helper: an update on a state without a parameter handler produces
nothing. -/
theorem update_none_of_no_handler (st : GravityCompensationState)
    (data_in : WrenchStamped) (out_frame : String)
    (h : st.parameter_handler = none) :
    update st data_in out_frame = none := by
  simp [update, h]

/-- Helper: evaluation of update when the filter is configured and all
four transform lookups resolve. -/
theorem update_eval (st : GravityCompensationState)
    (data_in : WrenchStamped) (out_frame : String) (ta tb tc td : Transform)
    (hconf : st.parameter_handler = some ())
    (hta : lookupTransform st.tf_buffer st.parameters.world_frame
      data_in.frame_id = some ta)
    (htb : lookupTransform st.tf_buffer out_frame
      st.parameters.world_frame = some tb)
    (htc : lookupTransform st.tf_buffer st.parameters.world_frame
      st.parameters.sensor_frame = some tc)
    (htd : lookupTransform st.tf_buffer st.parameters.world_frame
      st.parameters.force_frame = some td) :
    update st data_in out_frame =
      some ⟨out_frame, data_in.stamp,
        ⟨tb.rot.apply ((ta.rot.apply data_in.wrench.force).sub
            (td.rot.apply st.force)),
         tb.rot.apply ((ta.rot.apply data_in.wrench.torque).sub
            (((tc.rot.apply st.cog).add tc.trans).cross
              (td.rot.apply st.force)))⟩⟩ := by
  simp [update, hconf, hta, htb, htc, htd]

/-- The parameter snapshot of the TestGravityCompensation test after the
sensor frame is set to world: all frames world, CoG at the origin,
gravity force (0, 0, -9.81 * 5). -/
def testRawValid : RawParams :=
  ⟨some "world", some "world", some "world", some [0, 0, 0],
   some [0, 0, -(981/20)]⟩

/-- The snapshot of the TestGravityCompensationParameters test with a
CoG position vector of the wrong arity. -/
def testRawBadPos : RawParams :=
  ⟨some "world", some "sensor", some "world", some [0, 0],
   some [0, 0, -(981/20)]⟩

/-- A valid snapshot whose sensor frame differs from the world frame, the
initial setup of the TestGravityCompensation test. -/
def testRawSensor : RawParams :=
  ⟨some "world", some "sensor", some "world", some [0, 0, 0],
   some [0, 0, -(981/20)]⟩

/-- A valid snapshot with a changed CoG position, as set before the last
configure call of the TestGravityCompensationParameters test. -/
def testRawNewPos : RawParams :=
  ⟨some "world", some "world", some "world", some [0, 0, 1/5],
   some [0, 0, -(981/20)]⟩

/-- The filter state after a successful configure on testRawValid. -/
def stWorld : GravityCompensationState := (configure testRawValid initState).2

/-- The filter state after a successful configure on testRawSensor. -/
def stSensor : GravityCompensationState :=
  (configure testRawSensor initState).2

/-- An input wrench used to exercise update on concrete data. -/
def testWrenchIn : WrenchStamped := ⟨"world", 0, ⟨⟨1, 2, 3⟩, ⟨4, 5, 6⟩⟩⟩

/-- C1: for every frame name and every gravity magnitude mg, a filter
configured with sensor frame = force frame = world frame = output frame,
CoG position (0,0,0) and gravity force (0,0,-mg) in the force frame,
successfully updates a measured wrench with force (1,0,0) and torque
(10,0,0) to the corrected wrench with force (1,0,mg) and torque
(10,0,0), in the same frame at the original timestamp. -/
theorem identity_transform_correct (f : String) (mg t : ℚ) (hf : f ≠ "") :
    update (configure ⟨some f, some f, some f, some [0, 0, 0],
        some [0, 0, -mg]⟩ initState).2
      ⟨f, t, ⟨⟨1, 0, 0⟩, ⟨10, 0, 0⟩⟩⟩ f =
      some ⟨f, t, ⟨⟨1, 0, mg⟩, ⟨10, 0, 0⟩⟩⟩ := by
  simp [configure, validateParams, hf, compute_internal_params, initState,
    update, lookupTransform, Rot3.apply, Rot3.id, Vec3.dot, Vec3.add,
    Vec3.sub, Vec3.cross, Vec3.zero, Transform.id]

/-- Witness for C1 at the values of the TestGravityCompensation test
(mg = 9.81 * 5 = 981/20). -/
theorem identity_transform_correct_witness :
    ("world" : String) ≠ "" ∧
    update (configure ⟨some "world", some "world", some "world",
        some [0, 0, 0], some [0, 0, -(981/20)]⟩ initState).2
      ⟨"world", 0, ⟨⟨1, 0, 0⟩, ⟨10, 0, 0⟩⟩⟩ "world" =
      some ⟨"world", 0, ⟨⟨1, 0, 981/20⟩, ⟨10, 0, 0⟩⟩⟩ :=
  ⟨by decide, identity_transform_correct "world" (981/20) 0 (by decide)⟩

/-- C2: whenever the filter is configured and all four transform lookups
resolve, the gravity-induced force used by update is the world-frame
gravity force vector itself, the gravity-induced torque is the cross
product of the world-frame CoG position with that force, and the
corrected world-frame wrench is the world-frame raw wrench minus this
gravity-induced force and torque component-wise (the result being that
corrected wrench rotated into the output frame). -/
theorem update_gravity_math (st : GravityCompensationState)
    (data_in : WrenchStamped) (out_frame : String) (ta tb tc td : Transform)
    (hconf : st.parameter_handler = some ())
    (hta : lookupTransform st.tf_buffer st.parameters.world_frame
      data_in.frame_id = some ta)
    (htb : lookupTransform st.tf_buffer out_frame
      st.parameters.world_frame = some tb)
    (htc : lookupTransform st.tf_buffer st.parameters.world_frame
      st.parameters.sensor_frame = some tc)
    (htd : lookupTransform st.tf_buffer st.parameters.world_frame
      st.parameters.force_frame = some td) :
    update st data_in out_frame =
      some ⟨out_frame, data_in.stamp,
        ⟨tb.rot.apply ((ta.rot.apply data_in.wrench.force).sub
            (td.rot.apply st.force)),
         tb.rot.apply ((ta.rot.apply data_in.wrench.torque).sub
            (((tc.rot.apply st.cog).add tc.trans).cross
              (td.rot.apply st.force)))⟩⟩ :=
  update_eval st data_in out_frame ta tb tc td hconf hta htb htc htd

/-- Witness for C2 on the configured test state with identity
transforms. -/
theorem update_gravity_math_witness :
    stWorld.parameter_handler = some () ∧
    lookupTransform stWorld.tf_buffer stWorld.parameters.world_frame
      testWrenchIn.frame_id = some Transform.id ∧
    lookupTransform stWorld.tf_buffer "world"
      stWorld.parameters.world_frame = some Transform.id ∧
    lookupTransform stWorld.tf_buffer stWorld.parameters.world_frame
      stWorld.parameters.sensor_frame = some Transform.id ∧
    lookupTransform stWorld.tf_buffer stWorld.parameters.world_frame
      stWorld.parameters.force_frame = some Transform.id ∧
    update stWorld testWrenchIn "world" =
      some ⟨"world", testWrenchIn.stamp,
        ⟨Transform.id.rot.apply
            ((Transform.id.rot.apply testWrenchIn.wrench.force).sub
              (Transform.id.rot.apply stWorld.force)),
         Transform.id.rot.apply
            ((Transform.id.rot.apply testWrenchIn.wrench.torque).sub
              (((Transform.id.rot.apply stWorld.cog).add
                  Transform.id.trans).cross
                (Transform.id.rot.apply stWorld.force)))⟩⟩ :=
  ⟨rfl, rfl, rfl, rfl, rfl,
   update_gravity_math stWorld testWrenchIn "world"
     Transform.id Transform.id Transform.id Transform.id
     rfl rfl rfl rfl rfl⟩

/-- C3: update applies only the rotation parts of the source-to-world and
world-to-output transforms to the force and torque components (their
translations never enter the result), and stamps the result with the
output frame identifier and the original input timestamp: two configured
states agreeing on calibration whose lookups return transforms with the
same rotations for (a) and (b) — translations arbitrary — and the same
transforms for (c) and (d) yield the same output, and that output is
stamped with the output frame at the input timestamp. -/
theorem update_rotation_only_stamped
    (st st2 : GravityCompensationState) (data_in : WrenchStamped)
    (out_frame : String) (ta tb ta2 tb2 tc td : Transform)
    (hconf : st.parameter_handler = some ())
    (hconf2 : st2.parameter_handler = some ())
    (hc : st2.cog = st.cog) (hfo : st2.force = st.force)
    (hta : lookupTransform st.tf_buffer st.parameters.world_frame
      data_in.frame_id = some ta)
    (htb : lookupTransform st.tf_buffer out_frame
      st.parameters.world_frame = some tb)
    (htc : lookupTransform st.tf_buffer st.parameters.world_frame
      st.parameters.sensor_frame = some tc)
    (htd : lookupTransform st.tf_buffer st.parameters.world_frame
      st.parameters.force_frame = some td)
    (hta2 : lookupTransform st2.tf_buffer st2.parameters.world_frame
      data_in.frame_id = some ta2)
    (htb2 : lookupTransform st2.tf_buffer out_frame
      st2.parameters.world_frame = some tb2)
    (htc2 : lookupTransform st2.tf_buffer st2.parameters.world_frame
      st2.parameters.sensor_frame = some tc)
    (htd2 : lookupTransform st2.tf_buffer st2.parameters.world_frame
      st2.parameters.force_frame = some td)
    (hrot_a : ta2.rot = ta.rot) (hrot_b : tb2.rot = tb.rot) :
    update st data_in out_frame = update st2 data_in out_frame ∧
    (∃ w : Wrench, update st data_in out_frame =
      some ⟨out_frame, data_in.stamp, w⟩) := by
  rw [update_eval st data_in out_frame ta tb tc td hconf hta htb htc htd,
      update_eval st2 data_in out_frame ta2 tb2 tc td hconf2 hta2 htb2
        htc2 htd2, hrot_a, hrot_b, hc, hfo]
  exact ⟨rfl, _, rfl⟩

/-- Witness for C3 on the configured test state with identity
transforms. -/
theorem update_rotation_only_stamped_witness :
    stWorld.parameter_handler = some () ∧
    lookupTransform stWorld.tf_buffer stWorld.parameters.world_frame
      testWrenchIn.frame_id = some Transform.id ∧
    lookupTransform stWorld.tf_buffer "world"
      stWorld.parameters.world_frame = some Transform.id ∧
    lookupTransform stWorld.tf_buffer stWorld.parameters.world_frame
      stWorld.parameters.sensor_frame = some Transform.id ∧
    lookupTransform stWorld.tf_buffer stWorld.parameters.world_frame
      stWorld.parameters.force_frame = some Transform.id ∧
    Transform.id.rot = Transform.id.rot ∧
    (update stWorld testWrenchIn "world" = update stWorld testWrenchIn "world" ∧
     ∃ w : Wrench, update stWorld testWrenchIn "world" =
       some ⟨"world", testWrenchIn.stamp, w⟩) :=
  ⟨rfl, rfl, rfl, rfl, rfl, rfl,
   update_rotation_only_stamped stWorld stWorld testWrenchIn "world"
     Transform.id Transform.id Transform.id Transform.id Transform.id
     Transform.id rfl rfl rfl rfl rfl rfl rfl rfl rfl rfl rfl rfl
     rfl rfl⟩

/-- C4: for a configured filter, if any one of the four required
transform lookups (source to world, world to output, sensor to world,
force-reference to world) fails, update returns failure and produces no
output wrench. -/
theorem update_fails_on_lookup_failure (st : GravityCompensationState)
    (data_in : WrenchStamped) (out_frame : String)
    (hconf : st.parameter_handler = some ())
    (h : lookupTransform st.tf_buffer st.parameters.world_frame
        data_in.frame_id = none ∨
      lookupTransform st.tf_buffer out_frame
        st.parameters.world_frame = none ∨
      lookupTransform st.tf_buffer st.parameters.world_frame
        st.parameters.sensor_frame = none ∨
      lookupTransform st.tf_buffer st.parameters.world_frame
        st.parameters.force_frame = none) :
    update st data_in out_frame = none := by
  cases h1 : lookupTransform st.tf_buffer st.parameters.world_frame
      data_in.frame_id <;>
    cases h2 : lookupTransform st.tf_buffer out_frame
        st.parameters.world_frame <;>
      cases h3 : lookupTransform st.tf_buffer st.parameters.world_frame
          st.parameters.sensor_frame <;>
        cases h4 : lookupTransform st.tf_buffer st.parameters.world_frame
            st.parameters.force_frame <;>
          simp_all [update, hconf]

/-- Witness for C4: the first update of the TestGravityCompensation test,
where the sensor frame is "sensor" and its transform to world is
missing, fails. -/
theorem update_fails_on_lookup_failure_witness :
    stSensor.parameter_handler = some () ∧
    lookupTransform stSensor.tf_buffer stSensor.parameters.world_frame
      stSensor.parameters.sensor_frame = none ∧
    update stSensor testWrenchIn "world" = none := by
  have h : lookupTransform stSensor.tf_buffer
      stSensor.parameters.world_frame stSensor.parameters.sensor_frame =
      none := by decide
  exact ⟨rfl, h,
    update_fails_on_lookup_failure stSensor testWrenchIn "world" rfl
      (Or.inr (Or.inr (Or.inl h)))⟩

/-- C5: on an instance whose parameter handler has not yet been created,
configure fails for every parameter set in which the CoG position or
gravity force vector does not have exactly 3 components, or a required
frame name (world, sensor, or force-reference) is missing or empty. -/
theorem configure_rejects_invalid (raw : RawParams)
    (st : GravityCompensationState) (hfresh : st.parameter_handler = none)
    (hbad : raw.world_frame = none ∨ raw.world_frame = some "" ∨
      raw.sensor_frame = none ∨ raw.sensor_frame = some "" ∨
      raw.force_frame = none ∨ raw.force_frame = some "" ∨
      raw.cog_pos = none ∨
      (∃ l, raw.cog_pos = some l ∧ l.length ≠ 3) ∨
      raw.cog_force = none ∨
      (∃ l, raw.cog_force = some l ∧ l.length ≠ 3)) :
    (configure raw st).1 = false := by
  have hv : validateParams raw = none := by
    obtain ⟨w, s, f, p, g⟩ := raw
    unfold validateParams
    rcases w with _ | w <;> rcases s with _ | s <;> rcases f with _ | f <;>
      rcases p with _ | p <;> rcases g with _ | g <;> simp_all
    tauto
  simp [configure, hfresh, hv]

/-- Witness for C5: the TestGravityCompensationParameters snapshot with a
2-component CoG position is rejected on a fresh instance. -/
theorem configure_rejects_invalid_witness :
    initState.parameter_handler = none ∧
    (∃ l, testRawBadPos.cog_pos = some l ∧ l.length ≠ 3) ∧
    (configure testRawBadPos initState).1 = false := by
  have hl : ∃ l, testRawBadPos.cog_pos = some l ∧ l.length ≠ 3 :=
    ⟨[0, 0], rfl, by decide⟩
  exact ⟨rfl, hl,
    configure_rejects_invalid testRawBadPos initState rfl
      (Or.inr (Or.inr (Or.inr (Or.inr (Or.inr (Or.inr
        (Or.inr (Or.inl hl))))))))⟩

/-- C6: a failed configure call leaves the previously held configuration
untouched: the cached parameters and calibration vectors are unchanged
and the instance remains unconfigured — the parameter handler is still
absent, and indeed was already absent before the call (a previously
successfully configured instance holds a handler and its configure calls
cannot fail), so only a first-time configuration can fail and it leaves
the instance unconfigured. -/
theorem failed_configure_preserves_state (raw : RawParams)
    (st : GravityCompensationState) (h : (configure raw st).1 = false) :
    (configure raw st).2.parameters = st.parameters ∧
    (configure raw st).2.cog = st.cog ∧
    (configure raw st).2.force = st.force ∧
    (configure raw st).2.parameter_handler = none ∧
    st.parameter_handler = none := by
  obtain ⟨h1, h2, h3, h4, h5⟩ := configure_failed_state raw st h
  exact ⟨h3, h4, h5, h1, h2⟩

/-- Witness for C6: the rejected snapshot with a 2-component CoG position
leaves a fresh instance exactly as constructed. -/
theorem failed_configure_preserves_state_witness :
    (configure testRawBadPos initState).1 = false ∧
    ((configure testRawBadPos initState).2.parameters =
        initState.parameters ∧
      (configure testRawBadPos initState).2.cog = initState.cog ∧
      (configure testRawBadPos initState).2.force = initState.force ∧
      (configure testRawBadPos initState).2.parameter_handler = none ∧
      initState.parameter_handler = none) :=
  ⟨by decide,
   failed_configure_preserves_state testRawBadPos initState (by decide)⟩

/-- C7: configure may be invoked again on an already-configured instance;
with any parameter set that passes validation it succeeds and replaces
the cached parameter struct and both calibration vectors with the newly
read values. -/
theorem reconfigure_replaces (raw : RawParams)
    (st : GravityCompensationState) (p : Params)
    (hconf : st.parameter_handler = some ())
    (hvalid : validateParams raw = some p) :
    (configure raw st).1 = true ∧
    (configure raw st).2.parameter_handler = some () ∧
    (configure raw st).2.parameters = p ∧
    (configure raw st).2.cog = (compute_internal_params p).1 ∧
    (configure raw st).2.force = (compute_internal_params p).2 := by
  simp [configure, hconf, hvalid]

/-- Witness for C7: the second configure call of the
TestGravityCompensationParameters test, with the CoG position changed to
(0, 0, 0.2), succeeds on the already-configured filter and replaces the
calibration. -/
theorem reconfigure_replaces_witness :
    stWorld.parameter_handler = some () ∧
    validateParams testRawNewPos =
      some ⟨"world", "world", "world", [0, 0, 1/5],
        [0, 0, -(981/20)]⟩ ∧
    ((configure testRawNewPos stWorld).1 = true ∧
      (configure testRawNewPos stWorld).2.parameter_handler = some () ∧
      (configure testRawNewPos stWorld).2.parameters =
        ⟨"world", "world", "world", [0, 0, 1/5], [0, 0, -(981/20)]⟩ ∧
      (configure testRawNewPos stWorld).2.cog =
        (compute_internal_params ⟨"world", "world", "world",
          [0, 0, 1/5], [0, 0, -(981/20)]⟩).1 ∧
      (configure testRawNewPos stWorld).2.force =
        (compute_internal_params ⟨"world", "world", "world",
          [0, 0, 1/5], [0, 0, -(981/20)]⟩).2) :=
  ⟨rfl, rfl,
   reconfigure_replaces testRawNewPos stWorld
     ⟨"world", "world", "world", [0, 0, 1/5], [0, 0, -(981/20)]⟩
     rfl rfl⟩

/-- C8: every update call made before any successful configure fails and
produces no output: after any sequence of configure attempts none of
which succeeded, starting from a freshly constructed filter, update
returns none for every input wrench and output frame. -/
theorem update_before_success_fails (raws : List RawParams)
    (data_in : WrenchStamped) (out_frame : String)
    (h : (runConfigures raws).2 = false) :
    update (runConfigures raws).1 data_in out_frame = none := by
  unfold runConfigures at h ⊢
  exact update_none_of_no_handler _ data_in out_frame
    (foldl_configStep_false_handler raws initState rfl h)

/-- Witness for C8: after one failed configure attempt, update still
produces nothing. -/
theorem update_before_success_fails_witness :
    (runConfigures [testRawBadPos]).2 = false ∧
    update (runConfigures [testRawBadPos]).1 testWrenchIn "world" = none :=
  ⟨by decide,
   update_before_success_fails [testRawBadPos] testWrenchIn "world"
     (by decide)⟩

/-- C9: every configure call, successful or not, recreates the tf2
buffer and transform listener: the transform store of the resulting
state is empty, so transform data accumulated by a previously configured
instance is discarded even by a failed configuration attempt. -/
theorem configure_resets_tf_buffer (raw : RawParams)
    (st : GravityCompensationState) :
    (configure raw st).2.tf_buffer = ([] : TfStore) := by
  unfold configure
  cases hh : st.parameter_handler with
  | none =>
    cases hv : validateParams raw with
    | none => simp_all
    | some p => simp_all
  | some u => simp_all

/-- C10: once a configure call has created the parameter handler, every
subsequent configure call on that instance returns true, whatever the
current parameter snapshot holds: the validation failure path exists
only for the first creation of the handler. -/
theorem configure_true_once_created (raw : RawParams)
    (st : GravityCompensationState)
    (h : st.parameter_handler = some ()) :
    (configure raw st).1 = true := by
  simp [configure, h]

/-- Witness for C10: re-running configure on the configured filter with
the invalid 2-component CoG snapshot still reports success. -/
theorem configure_true_once_created_witness :
    stWorld.parameter_handler = some () ∧
    (configure testRawBadPos stWorld).1 = true :=
  ⟨rfl, configure_true_once_created testRawBadPos stWorld rfl⟩

end ControlFilters
